import Mathlib

/-
Verification of the U-LANC 2.0 backend (adaptive media compression service).

Shallow embedding of:
  backend/app/models.py              -- TaskStatus, CompressionTask
  backend/app/compression_engine.py  -- CompressionEngine.compress_image /
                                        compress_audio / compress_video and helpers
  backend/app/tasks.py               -- worker tasks compress_image / compress_audio /
                                        compress_video over the in-memory task table
  backend/app/main.py                -- upload_* task creation and the download handler

Modelling conventions:
  * The filesystem is a partial map from path to file size (`FS`); `os.path.getsize`
    is `getsize`, a successful write updates the map.
  * External effects whose outcomes the code branches on (PIL decode, the neural
    round-trips, `image.save`, ffmpeg invocations, OpenCV detections) are supplied
    by per-call environment records; each fallible effect is an `Except String`,
    mirroring a Python call that either returns or raises.
  * Python `try/except Exception` blocks become the explicit propagation of the
    first `.error` outcome into a failure result.
  * Machine reals (Python floats) are modelled as `ℚ`; the float expressions the
    code computes (`1 - c/o`, `* 100`, `51 - quality * 0.5`) are exact in binary
    floating point for the magnitudes involved, so `ℚ` is faithful.
  * An image, for the purposes of `_detect_important_regions`, is abstracted to
    the detector outputs OpenCV would produce on it: the list of face rectangles
    from `detectMultiScale` and the list of contour bounding rectangles from
    `findContours`/`boundingRect` (each `(x, y, w, h)`).
  * `datetime` fields (`created_at`, `completed_at`) are not modelled; no claim
    mentions them and `tasks.py` never writes `completed_at`.
-/

/-- A rectangle `(x, y, w, h)` as produced by `cv2.boundingRect` /
`detectMultiScale`. -/
structure Rect where
  x : Nat
  y : Nat
  w : Nat
  h : Nat
deriving DecidableEq, Repr

/-- An image abstracted to the outputs the OpenCV detectors produce on it:
face rectangles from `detectMultiScale` and contour bounding rectangles from
`findContours` + `boundingRect`, in detection order. -/
structure ImageData where
  faces : List Rect
  contours : List Rect
deriving DecidableEq, Repr

/-- One entry of the `important_regions` list built by
`_detect_important_regions` / `_analyze_video_regions`: the `type`, `bbox`,
optional `frame` index (video only) and `importance` fields of the dict. -/
structure Region where
  rtype : String
  x : Nat
  y : Nat
  w : Nat
  h : Nat
  frame : Option Nat := none
  importance : ℚ
deriving DecidableEq, Repr

/-- The `ai_analysis` dict of a success result.  `compress_image` and
`compress_video` build `{adaptive_mode, important_regions}` (the `image`
shape); `compress_audio` builds `{neural_compression, target_bitrate}`. -/
inductive AiAnalysis where
  | image (adaptive_mode : Bool) (important_regions : Nat)
  | audio (neural_compression : Bool) (target_bitrate : ℚ)
deriving DecidableEq, Repr

/-- The success dict returned by the engine's compress methods:
`{success: True, original_size, compressed_size, compression_ratio, ai_analysis}`. -/
structure CompressSuccess where
  original_size : Nat
  compressed_size : Nat
  compression_ratio : ℚ
  ai_analysis : AiAnalysis
deriving DecidableEq, Repr

/-- The two shapes of dict a compress method returns: the success dict, or
`{success: False, error: str(e)}` from the `except` handler. -/
inductive CompressionResult where
  | ok (d : CompressSuccess)
  | err (e : String)
deriving DecidableEq, Repr

/-- Accessor for `result["success"]` of either dict shape. -/
def CompressionResult.success : CompressionResult → Bool
  | .ok _ => true
  | .err _ => false

/-- The filesystem: a map from path to file size (in bytes) for the files
that exist. -/
def FS := String → Option Nat

/-- Writing a file of size `sz` at path `p`. -/
def FS.write (fs : FS) (p : String) (sz : Nat) : FS :=
  fun q => if q = p then some sz else fs q

/-- Embedding of `os.path.getsize(p)`: the size if the file exists, else an `OSError`. -/
def getsize (fs : FS) (p : String) : Except String Nat :=
  match fs p with
  | some sz => .ok sz
  | none => .error ("No such file or directory: " ++ p)

namespace CompressionEngine

/-- Embedding of `CompressionEngine._detect_important_regions`: every face rectangle becomes
a `face` region with importance 1.0; every contour bounding rectangle with
`w > 50 and h > 20` becomes a `text_candidate` region with importance 0.7;
smaller contours are skipped.  Faces are appended first, in detection order. -/
def detect_important_regions (img : ImageData) : List Region :=
  (img.faces.map fun b =>
    { rtype := "face", x := b.x, y := b.y, w := b.w, h := b.h, importance := 1 })
  ++ ((img.contours.filter fun b => 50 < b.w && 20 < b.h).map fun b =>
    { rtype := "text_candidate", x := b.x, y := b.y, w := b.w, h := b.h,
      importance := 7 / 10 })

/-- Embedding of `CompressionEngine._analyze_video_regions`: reads frames while
`cap.isOpened()` and `frame_count < 10` (so at most the first 10 decodable
frames, fewer when the stream ends first), runs only the Haar face detector on
each frame, and records each face as a `face` region with importance 1.0
tagged with its `frame` index.  The contour/text detection of
`_detect_important_regions` is not run here. -/
def analyze_video_regions (frames : List ImageData) : List Region :=
  ((frames.take 10).enum).flatMap fun p =>
    p.2.faces.map fun b =>
      { rtype := "face", x := b.x, y := b.y, w := b.w, h := b.h,
        frame := some p.1, importance := 1 }

/-- Truncation toward zero, the semantics of Python `int()` on a float. -/
def pyInt (q : ℚ) : ℤ :=
  if q < 0 then q.ceil else q.floor

/-- Non-overlapping left-to-right replacement of `pat` by `rep` over character
lists (the semantics of Python `str.replace` for a nonempty pattern).  The
fuel argument (instantiated with the list's length) makes the recursion
structural. -/
def replaceAux (pat rep : List Char) : Nat → List Char → List Char
  | _, [] => []
  | 0, cs => cs
  | fuel + 1, c :: cs =>
    if (c :: cs).take pat.length = pat then
      rep ++ replaceAux pat rep fuel (List.drop pat.length (c :: cs))
    else c :: replaceAux pat rep fuel cs

/-- Python `s.replace(pat, rep)` for a nonempty `pat` (the only use here is
`input_path.replace('.wav', '_compressed.mp3')`). -/
def pyReplace (s pat rep : String) : String :=
  String.mk (replaceAux pat.toList rep.toList s.toList.length s.toList)

/-- The keyword arguments of the `ffmpeg.input(...).output(...)` call in
`_compress_with_ffmpeg` (audio fallback). -/
structure FfmpegAudioArgs where
  inputPath : String
  outputPath : String
  acodec : String
  audioBitrate : String
deriving DecidableEq, Repr

/-- The keyword arguments of the `ffmpeg` call in `_compress_video_adaptive` /
`_compress_video_standard`. -/
structure FfmpegVideoArgs where
  inputPath : String
  outputPath : String
  vcodec : String
  crf : ℚ
  preset : String
  acodec : String
  audioBitrate : String
deriving DecidableEq, Repr

/-- Per-call outcomes of the external effects `compress_image` performs, each
an `Except` mirroring a Python call that either returns or raises:
`decode` is `Image.open(input_path).convert('RGB')` (yielding the image as the
detectors see it), `imageModel` is the truth of
`self.image_model and COMPRESSAI_AVAILABLE`, `neuralOutcome` is the
CompressAI round-trip of `_compress_with_compressai`, and `saveOutcome` is
`compressed_image.save(output_path, quality=quality, optimize=True)` — a
function of the requested quality — yielding the written file's size. -/
structure ImageEnv where
  decode : Except String ImageData
  imageModel : Bool
  neuralOutcome : Except String Unit
  saveOutcome : ℤ → Except String Nat

/-- Per-call outcomes of the external effects `compress_audio` performs:
`audioModel` is the truth of `self.audio_model and ENCODEC_AVAILABLE`,
`encodecBytes` is the Encodec round-trip of `_compress_with_encodec`
(yielding the byte count of the returned `bytes`), and `runFfmpeg` is the
ffmpeg invocation of `_compress_with_ffmpeg` (yielding the size of the file
it writes, or the error it raises). -/
structure AudioEnv where
  audioModel : Bool
  encodecBytes : Except String Nat
  runFfmpeg : FfmpegAudioArgs → Except String Nat

/-- Per-call outcomes of the external effects `compress_video` performs:
`frames` are the decodable frames `cv2.VideoCapture` yields in order (each
abstracted to its detector outputs), and `runFfmpeg` is the ffmpeg invocation
(yielding the size of the file it writes at `output_path`, or the error). -/
structure VideoEnv where
  frames : List ImageData
  runFfmpeg : FfmpegVideoArgs → Except String Nat

/-- Embedding of `CompressionEngine.compress_image`.  Mirrors the `try` body statement by
statement; the first raising call sends control to the `except` handler, which
returns `{success: False, error: str(e)}`.  The quality parameter only
parameterizes the save step (whose outcome `env.saveOutcome` supplies), and in
the non-neural fallbacks `_compress_adaptive_jpeg` / `_compress_standard_jpeg`
both return the image unchanged, so neither can raise.  A zero-byte input
makes the `compression_ratio` expression raise `ZeroDivisionError`. -/
def compress_image (fs : FS) (env : ImageEnv) (input_path output_path : String)
    (quality : ℤ) (adaptive_mode : Bool) : FS × CompressionResult :=
  match env.decode with
  | .error e => (fs, .err e)
  | .ok image =>
    match getsize fs input_path with
    | .error e => (fs, .err e)
    | .ok original_size =>
      let important_regions :=
        if adaptive_mode then detect_important_regions image else []
      match (if env.imageModel then env.neuralOutcome else .ok ()) with
      | .error e => (fs, .err e)
      | .ok _ =>
        match env.saveOutcome quality with
        | .error e => (fs, .err e)
        | .ok written =>
          let fs2 := FS.write fs output_path written
          match getsize fs2 output_path with
          | .error e => (fs2, .err e)
          | .ok compressed_size =>
            if original_size = 0 then (fs2, .err "division by zero")
            else
              (fs2, .ok
                { original_size := original_size
                  compressed_size := compressed_size
                  compression_ratio :=
                    (1 - (compressed_size : ℚ) / (original_size : ℚ)) * 100
                  ai_analysis := .image adaptive_mode
                    (if adaptive_mode then important_regions.length else 0) })

/-- The `ffmpeg.output(...)` arguments of `_compress_with_ffmpeg`: output path
is `input_path.replace('.wav', '_compressed.mp3')`, codec `mp3`, bitrate
`f'{int(bitrate * 1000)}'`. -/
def compress_with_ffmpeg_args (input_path : String) (bitrate : ℚ) :
    FfmpegAudioArgs :=
  { inputPath := input_path
    outputPath := pyReplace input_path ".wav" "_compressed.mp3"
    acodec := "mp3"
    audioBitrate := toString (pyInt (bitrate * 1000)) }

/-- Embedding of `CompressionEngine._compress_with_ffmpeg`: runs ffmpeg (which, on success,
writes the compressed file at the replace-derived output path) and returns
that path as a `str`.  Note it writes next to the input, not at the
`output_path` the caller `compress_audio` received. -/
def compress_with_ffmpeg (fs : FS) (env : AudioEnv) (input_path : String)
    (bitrate : ℚ) : FS × Except String String :=
  let args := compress_with_ffmpeg_args input_path bitrate
  match env.runFfmpeg args with
  | .error e => (fs, .error e)
  | .ok sz => (FS.write fs args.outputPath sz, .ok args.outputPath)

/-- Embedding of `CompressionEngine.compress_audio`.  On the neural branch the returned
`bytes` are written to `output_path`; on the ffmpeg branch the result is a
`str` (the path ffmpeg wrote to, derived from `input_path`), so the
`isinstance(compressed_audio, str)` test sizes that file instead and
`output_path` is never written. -/
def compress_audio (fs : FS) (env : AudioEnv) (input_path output_path : String)
    (bitrate : ℚ) : FS × CompressionResult :=
  match getsize fs input_path with
  | .error e => (fs, .err e)
  | .ok original_size =>
    if env.audioModel then
      match env.encodecBytes with
      | .error e => (fs, .err e)
      | .ok nbytes =>
        let fs2 := FS.write fs output_path nbytes
        match getsize fs2 output_path with
        | .error e => (fs2, .err e)
        | .ok compressed_size =>
          if original_size = 0 then (fs2, .err "division by zero")
          else
            (fs2, .ok
              { original_size := original_size
                compressed_size := compressed_size
                compression_ratio :=
                  (1 - (compressed_size : ℚ) / (original_size : ℚ)) * 100
                ai_analysis := .audio env.audioModel bitrate })
    else
      match compress_with_ffmpeg fs env input_path bitrate with
      | (fs2, .error e) => (fs2, .err e)
      | (fs2, .ok ret_path) =>
        match getsize fs2 ret_path with
        | .error e => (fs2, .err e)
        | .ok compressed_size =>
          if original_size = 0 then (fs2, .err "division by zero")
          else
            (fs2, .ok
              { original_size := original_size
                compressed_size := compressed_size
                compression_ratio :=
                  (1 - (compressed_size : ℚ) / (original_size : ℚ)) * 100
                ai_analysis := .audio env.audioModel bitrate })

/-- The ffmpeg arguments of `_compress_video_adaptive`:
`crf = 51 - (quality * 0.5)` plus fixed codec settings. -/
def compress_video_adaptive_args (input_path output_path : String)
    (quality : ℤ) : FfmpegVideoArgs :=
  { inputPath := input_path
    outputPath := output_path
    vcodec := "libx264"
    crf := 51 - (quality : ℚ) * (1 / 2)
    preset := "medium"
    acodec := "aac"
    audioBitrate := "128k" }

/-- The ffmpeg arguments of `_compress_video_standard`: identical settings,
`crf = 51 - (quality * 0.5)`. -/
def compress_video_standard_args (input_path output_path : String)
    (quality : ℤ) : FfmpegVideoArgs :=
  { inputPath := input_path
    outputPath := output_path
    vcodec := "libx264"
    crf := 51 - (quality : ℚ) * (1 / 2)
    preset := "medium"
    acodec := "aac"
    audioBitrate := "128k" }

/-- Embedding of `CompressionEngine.compress_video`.  Reads the input size, (if adaptive)
analyzes frames for regions, runs ffmpeg through `_compress_video_adaptive`
or `_compress_video_standard` (both write `output_path`), then sizes
`output_path`. -/
def compress_video (fs : FS) (env : VideoEnv) (input_path output_path : String)
    (quality : ℤ) (adaptive_mode : Bool) : FS × CompressionResult :=
  match getsize fs input_path with
  | .error e => (fs, .err e)
  | .ok original_size =>
    let important_regions :=
      if adaptive_mode then analyze_video_regions env.frames else []
    let args :=
      if adaptive_mode then
        compress_video_adaptive_args input_path output_path quality
      else
        compress_video_standard_args input_path output_path quality
    match env.runFfmpeg args with
    | .error e => (fs, .err e)
    | .ok sz =>
      let fs2 := FS.write fs output_path sz
      match getsize fs2 output_path with
      | .error e => (fs2, .err e)
      | .ok compressed_size =>
        if original_size = 0 then (fs2, .err "division by zero")
        else
          (fs2, .ok
            { original_size := original_size
              compressed_size := compressed_size
              compression_ratio :=
                (1 - (compressed_size : ℚ) / (original_size : ℚ)) * 100
              ai_analysis := .image adaptive_mode
                (if adaptive_mode then important_regions.length else 0) })

end CompressionEngine

/-- Embedding of `models.TaskStatus`. -/
inductive TaskStatus where
  | pending
  | processing
  | completed
  | failed
deriving DecidableEq, Repr

/-- Embedding of `models.CompressionTask` (the pydantic job record), with its field
defaults.  `created_at`/`completed_at` are not modelled (never consulted;
`completed_at` is never written by the workers). -/
structure CompressionTask where
  id : String
  file_type : String
  original_filename : String
  original_size : Nat
  file_path : String
  compressed_file_path : Option String := none
  compressed_size : Option Nat := none
  compression_ratio : Option ℚ := none
  status : TaskStatus := .pending
  progress : Nat := 0
  error_message : Option String := none
  quality : Option ℤ := none
  adaptive_mode : Option Bool := none
  bitrate : Option ℚ := none
  ai_analysis : Option AiAnalysis := none
deriving DecidableEq, Repr

/-- The in-memory task storage `tasks: Dict[str, CompressionTask]`, as an
association list keyed by task id. -/
def TaskTable := List (String × CompressionTask)

/-- The `tasks[task_id]` lookup; `isSome` of this is the `task_id in tasks`
membership test. -/
def findTask (tbl : TaskTable) (task_id : String) : Option CompressionTask :=
  (List.find? (fun p => p.1 = task_id) tbl).map (fun p => p.2)

/-- The guarded mutation pattern of `tasks.py`:
`if task_id in tasks: tasks[task_id].<field> = ...` — applies `f` to the
stored record when the id is present, otherwise touches nothing. -/
def updateIfPresent (tbl : TaskTable) (task_id : String)
    (f : CompressionTask → CompressionTask) : TaskTable :=
  if (findTask tbl task_id).isSome then
    tbl.map (fun p => if p.1 = task_id then (p.1, f p.2) else p)
  else tbl

/-- The first guarded write of every worker task:
`status = PROCESSING; progress = 10`. -/
def markProcessing10 (t : CompressionTask) : CompressionTask :=
  { t with status := .processing, progress := 10 }

/-- The second guarded write of every worker task: `progress = 30`. -/
def markProgress30 (t : CompressionTask) : CompressionTask :=
  { t with progress := 30 }

/-- The success-branch writes of every worker task: status COMPLETED,
progress 100, artifact path and the result's size/ratio/analysis. -/
def markCompleted (output_path : String) (d : CompressSuccess)
    (t : CompressionTask) : CompressionTask :=
  { t with
    status := .completed
    progress := 100
    compressed_file_path := some output_path
    compressed_size := some d.compressed_size
    compression_ratio := some d.compression_ratio
    ai_analysis := some d.ai_analysis }

/-- The failure-branch writes of every worker task (also the shape of the
`except` handler's writes): status FAILED, the error message recorded,
progress left at its last value. -/
def markFailed (e : String) (t : CompressionTask) : CompressionTask :=
  { t with status := .failed, error_message := some e }

/-- The dict a worker task returns:
`{success, task_id, compressed_size?, compression_ratio?, error?}`. -/
structure TaskReturn where
  success : Bool
  task_id : String
  compressed_size : Option Nat := none
  compression_ratio : Option ℚ := none
  error : Option String := none
deriving DecidableEq, Repr

/-- Embedding of `Path(p).name`: the final path component (the characters after the last
slash). -/
def pathName (p : String) : String :=
  String.mk (p.toList.foldl (fun acc c => if c = '/' then [] else acc ++ [c]) [])

/-- Embedding of `Path(p).stem`: the final component minus its suffix, where (per
`pathlib`) the suffix is nonempty only when the last dot of the name sits
strictly inside it. -/
def pathStem (p : String) : String :=
  let n := pathName p
  let cs := n.toList
  match (cs.enum.filter (fun q => q.2 = '.')).getLast? with
  | some q =>
      if 0 < q.1 ∧ q.1 < cs.length - 1 then String.mk (cs.take q.1) else n
  | none => n

/-- Embedding of `tasks.compress_image`: the Celery worker task.  Each table write is the
guarded pattern embedded by `updateIfPresent`; the output path is
`Path("outputs") / f"compressed_{input_path.name}"`.  The engine call cannot
raise (its own `try/except` converts failures into the error dict), and all
other statements of the `try` body are total, so the task's own `except`
handler — which would perform the same writes as the failure branch
(`markFailed`) — is unreachable in the model. -/
def task_compress_image (tbl : TaskTable) (fs : FS)
    (env : CompressionEngine.ImageEnv) (task_id file_path : String)
    (quality : ℤ) (adaptive_mode : Bool) : TaskTable × FS × TaskReturn :=
  let tbl1 := updateIfPresent tbl task_id markProcessing10
  let output_path := "outputs/compressed_" ++ pathName file_path
  let tbl2 := updateIfPresent tbl1 task_id markProgress30
  match CompressionEngine.compress_image fs env file_path output_path
      quality adaptive_mode with
  | (fs2, .ok d) =>
    (updateIfPresent tbl2 task_id (markCompleted output_path d), fs2,
      { success := true, task_id := task_id,
        compressed_size := some d.compressed_size,
        compression_ratio := some d.compression_ratio })
  | (fs2, .err e) =>
    (updateIfPresent tbl2 task_id (markFailed e), fs2,
      { success := false, task_id := task_id, error := some e })

/-- Embedding of `tasks.compress_audio`: same structure; the output path is
`Path("outputs") / f"compressed_{input_path.stem}.mp3"`. -/
def task_compress_audio (tbl : TaskTable) (fs : FS)
    (env : CompressionEngine.AudioEnv) (task_id file_path : String)
    (bitrate : ℚ) : TaskTable × FS × TaskReturn :=
  let tbl1 := updateIfPresent tbl task_id markProcessing10
  let output_path := "outputs/compressed_" ++ pathStem file_path ++ ".mp3"
  let tbl2 := updateIfPresent tbl1 task_id markProgress30
  match CompressionEngine.compress_audio fs env file_path output_path
      bitrate with
  | (fs2, .ok d) =>
    (updateIfPresent tbl2 task_id (markCompleted output_path d), fs2,
      { success := true, task_id := task_id,
        compressed_size := some d.compressed_size,
        compression_ratio := some d.compression_ratio })
  | (fs2, .err e) =>
    (updateIfPresent tbl2 task_id (markFailed e), fs2,
      { success := false, task_id := task_id, error := some e })

/-- Embedding of `tasks.compress_video`: same structure as the image task. -/
def task_compress_video (tbl : TaskTable) (fs : FS)
    (env : CompressionEngine.VideoEnv) (task_id file_path : String)
    (quality : ℤ) (adaptive_mode : Bool) : TaskTable × FS × TaskReturn :=
  let tbl1 := updateIfPresent tbl task_id markProcessing10
  let output_path := "outputs/compressed_" ++ pathName file_path
  let tbl2 := updateIfPresent tbl1 task_id markProgress30
  match CompressionEngine.compress_video fs env file_path output_path
      quality adaptive_mode with
  | (fs2, .ok d) =>
    (updateIfPresent tbl2 task_id (markCompleted output_path d), fs2,
      { success := true, task_id := task_id,
        compressed_size := some d.compressed_size,
        compression_ratio := some d.compression_ratio })
  | (fs2, .err e) =>
    (updateIfPresent tbl2 task_id (markFailed e), fs2,
      { success := false, task_id := task_id, error := some e })

/-- The job record `main.upload_image` constructs and stores before
dispatching the worker: note `status=TaskStatus.PROCESSING` explicitly at
creation. -/
def upload_image_task (task_id filename : String) (content_len : Nat)
    (quality : ℤ) (adaptive_mode : Bool) : CompressionTask :=
  { id := task_id
    file_type := "image"
    original_filename := filename
    original_size := content_len
    file_path := "uploads/" ++ task_id ++ "_" ++ filename
    quality := some quality
    adaptive_mode := some adaptive_mode
    status := .processing }

/-- The job record `main.upload_audio` constructs and stores:
`status=TaskStatus.PROCESSING` at creation. -/
def upload_audio_task (task_id filename : String) (content_len : Nat)
    (bitrate : ℚ) : CompressionTask :=
  { id := task_id
    file_type := "audio"
    original_filename := filename
    original_size := content_len
    file_path := "uploads/" ++ task_id ++ "_" ++ filename
    bitrate := some bitrate
    status := .processing }

/-- The job record `main.upload_video` constructs and stores:
`status=TaskStatus.PROCESSING` at creation. -/
def upload_video_task (task_id filename : String) (content_len : Nat)
    (quality : ℤ) (adaptive_mode : Bool) : CompressionTask :=
  { id := task_id
    file_type := "video"
    original_filename := filename
    original_size := content_len
    file_path := "uploads/" ++ task_id ++ "_" ++ filename
    quality := some quality
    adaptive_mode := some adaptive_mode
    status := .processing }

/-- The `HTTPException`s `main.download_compressed_file` can raise, plus the
served-file success case. -/
inductive DownloadResponse where
  | notFound (detail : String)
  | badRequest (detail : String)
  | fileResponse (path : String)
deriving DecidableEq, Repr

/-- Embedding of `main.download_compressed_file`: 404 for an unknown id, 400 unless the
task is COMPLETED, 404 when `compressed_file_path` is falsy (None or the
empty string) or no file exists there, else serves the file.  The handler
performs no write to `tasks`, so the table is returned unchanged. -/
def download_compressed_file (tbl : TaskTable) (fs : FS) (task_id : String) :
    TaskTable × DownloadResponse :=
  (tbl,
    match findTask tbl task_id with
    | none => .notFound "Task not found"
    | some task =>
      if task.status ≠ TaskStatus.completed then
        .badRequest "Task not completed"
      else
        match task.compressed_file_path with
        | none => .notFound "Compressed file not found"
        | some p =>
          if p = "" then .notFound "Compressed file not found"
          else if (fs p).isSome then .fileResponse p
          else .notFound "Compressed file not found")

/- ------------------------------------------------------------------ -/
/- Concrete fixtures used by closed counterexamples and witnesses.    -/
/- ------------------------------------------------------------------ -/

/-- A filesystem holding a single 1000-byte uploaded image. -/
def fsImg : FS := fun p => if p = "uploads/t1_a.jpg" then some 1000 else none

/-- An image-call environment on the classical (no neural model) path:
decoding yields an image with no detections, saving writes 400 bytes. -/
def envImgOk : CompressionEngine.ImageEnv :=
  { decode := .ok ⟨[], []⟩
    imageModel := false
    neuralOutcome := .ok ()
    saveOutcome := fun _ => .ok 400 }

/-- An image-call environment whose decode raises (corrupt source). -/
def envImgBad : CompressionEngine.ImageEnv :=
  { decode := .error "cannot identify image file"
    imageModel := false
    neuralOutcome := .ok ()
    saveOutcome := fun _ => .ok 400 }

/-- A filesystem holding a single 1000-byte uploaded audio file. -/
def fsAudio : FS := fun p => if p = "uploads/t2_song.wav" then some 1000 else none

/-- An audio-call environment on the classical (ffmpeg) fallback path:
the ffmpeg run writes a 300-byte mp3. -/
def envAudioFfmpeg : CompressionEngine.AudioEnv :=
  { audioModel := false
    encodecBytes := .error "unused"
    runFfmpeg := fun _ => .ok 300 }

/-- An audio-call environment whose ffmpeg run fails (non-zero exit). -/
def envAudioBad : CompressionEngine.AudioEnv :=
  { audioModel := false
    encodecBytes := .error "unused"
    runFfmpeg := fun _ => .error "ffmpeg error (see stderr output for detail)" }

/-- A filesystem holding a single 1000-byte uploaded video file. -/
def fsVideo : FS := fun p => if p = "uploads/t3_clip.mp4" then some 1000 else none

/-- A video-call environment with no decodable frames whose ffmpeg run
writes 500 bytes. -/
def envVideoOk : CompressionEngine.VideoEnv :=
  { frames := []
    runFfmpeg := fun _ => .ok 500 }

/-- A video-call environment whose ffmpeg run fails. -/
def envVideoBad : CompressionEngine.VideoEnv :=
  { frames := []
    runFfmpeg := fun _ => .error "ffmpeg error (see stderr output for detail)" }

/- ------------------------------------------------------------------ -/
/- Claims                                                             -/
/- ------------------------------------------------------------------ -/

/-- C8: for every quality value, both `_compress_video_adaptive` and
`_compress_video_standard` set the encoder rate-control value (CRF) to
`51 − quality × 0.5` — an unclamped affine map — so quality=100 yields 1,
quality=50 yields 26, and quality=0 yields 51. -/
theorem video_rate_control_mapping :
    ∀ (input output : String) (q : ℤ),
      (CompressionEngine.compress_video_adaptive_args input output q).crf
          = 51 - (q : ℚ) * (1 / 2) ∧
      (CompressionEngine.compress_video_standard_args input output q).crf
          = 51 - (q : ℚ) * (1 / 2) ∧
      (CompressionEngine.compress_video_adaptive_args input output 100).crf = 1 ∧
      (CompressionEngine.compress_video_adaptive_args input output 50).crf = 26 ∧
      (CompressionEngine.compress_video_adaptive_args input output 0).crf = 51 ∧
      (CompressionEngine.compress_video_standard_args input output 100).crf = 1 ∧
      (CompressionEngine.compress_video_standard_args input output 50).crf = 26 ∧
      (CompressionEngine.compress_video_standard_args input output 0).crf = 51 := by
  intro input output q
  refine ⟨rfl, rfl, ?_, ?_, ?_, ?_, ?_, ?_⟩ <;>
    norm_num [CompressionEngine.compress_video_adaptive_args,
      CompressionEngine.compress_video_standard_args]

/-- C2 counterexample: the job record `upload_image` creates and stores has
status `processing`, not `pending`, already at the moment submit returns. -/
theorem submit_status_pending_cex :
    (upload_image_task "t1" "a.jpg" 1000 80 true).status = TaskStatus.processing ∧
    TaskStatus.processing ≠ TaskStatus.pending :=
  ⟨rfl, by decide⟩

/-- C2 (amended): for every submission of any media kind, the job record
created by the upload handler already has status `processing` (the model's
`pending` default is overridden at creation); the worker's dispatch start
re-asserts status `processing` and sets progress to 10. -/
theorem submit_status_processing :
    ∀ (task_id filename : String) (len : Nat) (q : ℤ) (a : Bool) (b : ℚ)
      (t : CompressionTask),
      (upload_image_task task_id filename len q a).status = TaskStatus.processing ∧
      (upload_audio_task task_id filename len b).status = TaskStatus.processing ∧
      (upload_video_task task_id filename len q a).status = TaskStatus.processing ∧
      (markProcessing10 t).status = TaskStatus.processing ∧
      (markProcessing10 t).progress = 10 := by
  intro task_id filename len q a b t
  exact ⟨rfl, rfl, rfl, rfl, rfl⟩

/-- C6 counterexample: an image with one detected 10×10 face and no contours;
the detector returns that face region even though its width 10 ≤ 50 and
height 10 ≤ 20, so small regions are not excluded from the returned set. -/
theorem region_size_filter_cex :
    CompressionEngine.detect_important_regions { faces := [⟨0, 0, 10, 10⟩], contours := [] }
        = [{ rtype := "face", x := 0, y := 0, w := 10, h := 10, importance := 1 }] ∧
    ¬ (50 < 10) ∧ ¬ (20 < 10) :=
  ⟨rfl, by decide, by decide⟩

/-- C6 (amended): the width > 50 / height > 20 size filter applies only to
text-candidate regions: every region the detector returns is either a `face`
region with importance exactly 1.0 (faces of any size are included), or a
`text_candidate` region with importance exactly 0.7 and width > 50 and
height > 20; and every detected face yields its region. -/
theorem region_size_filter_amended :
    ∀ (img : ImageData) (r : Region),
      (r ∈ CompressionEngine.detect_important_regions img →
        (r.rtype = "face" ∧ r.importance = 1) ∨
        (r.rtype = "text_candidate" ∧ r.importance = 7 / 10 ∧
          50 < r.w ∧ 20 < r.h)) ∧
      (∀ b ∈ img.faces,
        ({ rtype := "face", x := b.x, y := b.y, w := b.w, h := b.h,
           importance := 1 } : Region)
          ∈ CompressionEngine.detect_important_regions img) := by
  intro img r
  constructor
  · intro hr
    rcases List.mem_append.mp hr with h | h
    · rcases List.mem_map.mp h with ⟨b, _, rfl⟩
      exact Or.inl ⟨rfl, rfl⟩
    · rcases List.mem_map.mp h with ⟨b, hb, rfl⟩
      rcases List.mem_filter.mp hb with ⟨_, hcond⟩
      simp only [Bool.and_eq_true, decide_eq_true_eq] at hcond
      exact Or.inr ⟨rfl, rfl, hcond.1, hcond.2⟩
  · intro b hb
    exact List.mem_append.mpr (Or.inl (List.mem_map.mpr ⟨b, hb, rfl⟩))

/-- Witness for C6's amended theorem: the 10×10 face region of the
counterexample image is classified by the theorem as a face of weight 1.0. -/
theorem region_size_filter_amended_witness :
    (({ rtype := "face", x := 0, y := 0, w := 10, h := 10,
        importance := 1 } : Region).rtype = "face" ∧
      ({ rtype := "face", x := 0, y := 0, w := 10, h := 10,
         importance := 1 } : Region).importance = 1) ∨
    (({ rtype := "face", x := 0, y := 0, w := 10, h := 10,
        importance := 1 } : Region).rtype = "text_candidate" ∧
      ({ rtype := "face", x := 0, y := 0, w := 10, h := 10,
         importance := 1 } : Region).importance = 7 / 10 ∧
      50 < ({ rtype := "face", x := 0, y := 0, w := 10, h := 10,
              importance := 1 } : Region).w ∧
      20 < ({ rtype := "face", x := 0, y := 0, w := 10, h := 10,
              importance := 1 } : Region).h) :=
  (region_size_filter_amended { faces := [⟨0, 0, 10, 10⟩], contours := [] }
    { rtype := "face", x := 0, y := 0, w := 10, h := 10, importance := 1 }).1
    (List.Mem.head _)

/-- C7 counterexample: a video whose first frame has no faces and one
100×30 contour.  The video analyzer returns no regions, while the image
detector applied to that same frame returns a text-candidate region — so the
video path does not apply the (full) image detector to sampled frames. -/
theorem video_region_analysis_cex :
    CompressionEngine.analyze_video_regions [⟨[], [⟨0, 0, 100, 30⟩]⟩] = [] ∧
    CompressionEngine.detect_important_regions ⟨[], [⟨0, 0, 100, 30⟩]⟩ ≠ [] :=
  ⟨rfl, List.cons_ne_nil _ _⟩

/-- C7 (amended): video region analysis samples at most the first 10
decodable frames (stopping early when frames run out) and applies face
detection only — not the text-candidate part of the image detector — to each
sampled frame: a region is produced exactly for each face of each of the
first 10 frames, tagged with that frame's index and importance 1.0. -/
theorem video_region_analysis_amended :
    ∀ (frames : List ImageData) (r : Region),
      (CompressionEngine.analyze_video_regions frames
          = CompressionEngine.analyze_video_regions (frames.take 10)) ∧
      (r ∈ CompressionEngine.analyze_video_regions frames ↔
        ∃ i, i < 10 ∧ ∃ f, frames[i]? = some f ∧ ∃ b ∈ f.faces,
          r = { rtype := "face", x := b.x, y := b.y, w := b.w, h := b.h,
                frame := some i, importance := 1 }) := by
  intro frames r
  constructor
  · unfold CompressionEngine.analyze_video_regions
    rw [List.take_take]
    norm_num
  · unfold CompressionEngine.analyze_video_regions
    constructor
    · intro hr
      rcases List.mem_flatMap.mp hr with ⟨⟨i, f⟩, hif, hrf⟩
      have hif2 := List.mk_mem_enum_iff_getElem?.mp hif
      rw [List.getElem?_take] at hif2
      by_cases hi : i < 10
      · rw [if_pos hi] at hif2
        rcases List.mem_map.mp hrf with ⟨b, hb, rfl⟩
        exact ⟨i, hi, f, hif2, b, hb, rfl⟩
      · rw [if_neg hi] at hif2
        exact absurd hif2 (by simp)
    · rintro ⟨i, hi, f, hf, b, hb, rfl⟩
      refine List.mem_flatMap.mpr ⟨(i, f), ?_, ?_⟩
      · exact List.mk_mem_enum_iff_getElem?.mpr
          (by rw [List.getElem?_take, if_pos hi]; exact hf)
      · exact List.mem_map.mpr ⟨b, hb, rfl⟩

/-- C1 counterexample: a concrete completed image compression (1000-byte
input, 400-byte output).  The stored compression_ratio is
`(1 − 400/1000) × 100 = 60`, not `1 − 400/1000 = 3/5`: the code stores a
percentage, so the claimed equality fails. -/
theorem compression_ratio_percent_cex :
    (CompressionEngine.compress_image fsImg envImgOk "uploads/t1_a.jpg"
        "outputs/compressed_t1_a.jpg" 80 false).2
      = .ok { original_size := 1000, compressed_size := 400,
              compression_ratio := (1 - ((400 : ℕ) : ℚ) / ((1000 : ℕ) : ℚ)) * 100,
              ai_analysis := .image false 0 } ∧
    (1 - ((400 : ℕ) : ℚ) / ((1000 : ℕ) : ℚ)) * 100
      ≠ 1 - ((400 : ℕ) : ℚ) / ((1000 : ℕ) : ℚ) := by
  refine ⟨rfl, ?_⟩
  norm_num

/-- C1 (amended): for every completed compression of any media kind, the
stored compression_ratio equals `(1 − compressed_size/original_size) × 100`
— a percentage — computed from the same stored sizes, and may be negative. -/
theorem compression_ratio_formula :
    ∀ (fs : FS) (envI : CompressionEngine.ImageEnv)
      (envA : CompressionEngine.AudioEnv) (envV : CompressionEngine.VideoEnv)
      (input output : String) (q : ℤ) (a : Bool) (b : ℚ) (d : CompressSuccess),
      ((CompressionEngine.compress_image fs envI input output q a).2 = .ok d →
        d.compression_ratio
          = (1 - (d.compressed_size : ℚ) / (d.original_size : ℚ)) * 100) ∧
      ((CompressionEngine.compress_audio fs envA input output b).2 = .ok d →
        d.compression_ratio
          = (1 - (d.compressed_size : ℚ) / (d.original_size : ℚ)) * 100) ∧
      ((CompressionEngine.compress_video fs envV input output q a).2 = .ok d →
        d.compression_ratio
          = (1 - (d.compressed_size : ℚ) / (d.original_size : ℚ)) * 100) := by
  intro fs envI envA envV input output q a b d
  refine ⟨?_, ?_, ?_⟩
  · intro h
    unfold CompressionEngine.compress_image at h
    dsimp only at h
    repeat' split at h
    all_goals try simp_all
    all_goals subst h
    all_goals rfl
  · intro h
    unfold CompressionEngine.compress_audio at h
    dsimp only at h
    repeat' split at h
    all_goals try simp_all
    all_goals subst h
    all_goals rfl
  · intro h
    unfold CompressionEngine.compress_video at h
    dsimp only at h
    repeat' split at h
    all_goals try simp_all
    all_goals subst h
    all_goals rfl

/-- The success record of the fixture image compression (1000 → 400 bytes,
classical path, non-adaptive). -/
def dImg : CompressSuccess :=
  { original_size := 1000, compressed_size := 400,
    compression_ratio := (1 - ((400 : ℕ) : ℚ) / ((1000 : ℕ) : ℚ)) * 100,
    ai_analysis := .image false 0 }

/-- Witness for C1's amended theorem at the fixture image compression. -/
theorem compression_ratio_formula_witness :
    dImg.compression_ratio
      = (1 - (dImg.compressed_size : ℚ) / (dImg.original_size : ℚ)) * 100 :=
  (compression_ratio_formula fsImg envImgOk envAudioFfmpeg envVideoOk
    "uploads/t1_a.jpg" "outputs/compressed_t1_a.jpg" 80 false 6 dImg).1 rfl

/-- The task table fixture: one audio job exactly as `upload_audio` stores
it ("song.wav", 1000 bytes, bitrate 6.0). -/
def tblAudio : TaskTable := [("t2", upload_audio_task "t2" "song.wav" 1000 6)]

/-- C3: on the classical (ffmpeg) fallback path the audio job reaches status
COMPLETED with `compressed_file_path = "outputs/compressed_t2_song.mp3"`, but
no file exists at that recorded reference in the final filesystem — ffmpeg
wrote "uploads/t2_song_compressed.mp3" instead, and `compress_audio` never
writes the `output_path` it was given on this branch.  Write-then-publish is
violated: the job is COMPLETED while the recorded artifact is absent. -/
theorem audio_artifact_path_mismatch :
    ((findTask (task_compress_audio tblAudio fsAudio envAudioFfmpeg "t2"
          "uploads/t2_song.wav" 6).1 "t2").map
        (fun t => (t.status, t.compressed_file_path))
      = some (TaskStatus.completed, some "outputs/compressed_t2_song.mp3")) ∧
    (task_compress_audio tblAudio fsAudio envAudioFfmpeg "t2"
        "uploads/t2_song.wav" 6).2.1 "outputs/compressed_t2_song.mp3" = none ∧
    (task_compress_audio tblAudio fsAudio envAudioFfmpeg "t2"
        "uploads/t2_song.wav" 6).2.1 "uploads/t2_song_compressed.mp3" = some 300 :=
  ⟨rfl, rfl, rfl⟩

/-- The membership-guarded write does nothing when `task_id` is absent from
the table — shared helper for the worker-task frame property. -/
theorem updateIfPresent_absent {tbl : TaskTable} {task_id : String}
    (h : findTask tbl task_id = none) (f : CompressionTask → CompressionTask) :
    updateIfPresent tbl task_id f = tbl := by
  simp [updateIfPresent, h]

/-- C9: `download_compressed_file` never writes the task table; it fails
with not-found for an unknown id, with "Task not completed" whenever the
task's status is not COMPLETED, and with not-found when the task is
COMPLETED but the recorded artifact reference is falsy or absent from the
filesystem. -/
theorem download_failure_modes :
    ∀ (tbl : TaskTable) (fs : FS) (task_id : String),
      ((download_compressed_file tbl fs task_id).1 = tbl) ∧
      (findTask tbl task_id = none →
        (download_compressed_file tbl fs task_id).2
          = .notFound "Task not found") ∧
      (∀ t, findTask tbl task_id = some t → t.status ≠ TaskStatus.completed →
        (download_compressed_file tbl fs task_id).2
          = .badRequest "Task not completed") ∧
      (∀ t, findTask tbl task_id = some t → t.status = TaskStatus.completed →
        (t.compressed_file_path = none ∨ t.compressed_file_path = some "" ∨
          ∀ p, t.compressed_file_path = some p → fs p = none) →
        (download_compressed_file tbl fs task_id).2
          = .notFound "Compressed file not found") := by
  intro tbl fs task_id
  refine ⟨rfl, ?_, ?_, ?_⟩
  · intro h
    simp [download_compressed_file, h]
  · intro t ht hs
    simp [download_compressed_file, ht, hs]
  · intro t ht hs hmiss
    rcases hp : t.compressed_file_path with _ | p
    · simp [download_compressed_file, ht, hs, hp]
    · rcases hmiss with h0 | h0 | h0
      · rw [hp] at h0
        exact absurd h0 (by simp)
      · rw [hp] at h0
        injection h0 with h0
        simp [download_compressed_file, ht, hs, hp, h0]
      · have hn := h0 p hp
        by_cases hp0 : p = "" <;>
          simp [download_compressed_file, ht, hs, hp, hp0, hn]

/-- Witness for C9 at a concrete call: fetching an unknown id from an empty
table is rejected with the not-found error. -/
theorem download_failure_modes_witness :
    (download_compressed_file [] (fun _ => none) "nope").2
      = .notFound "Task not found" :=
  (download_failure_modes [] (fun _ => none) "nope").2.1 rfl

/-- C10: a worker task (any media kind) invoked with a `task_id` absent from
the job table leaves the table entirely unchanged — every table write is
guarded by the membership check — and still returns its result dict
(carrying that task_id) rather than raising. -/
theorem absent_task_frame :
    ∀ (tbl : TaskTable) (fs : FS) (envI : CompressionEngine.ImageEnv)
      (envA : CompressionEngine.AudioEnv) (envV : CompressionEngine.VideoEnv)
      (task_id file_path : String) (q : ℤ) (a : Bool) (b : ℚ),
      findTask tbl task_id = none →
        (task_compress_image tbl fs envI task_id file_path q a).1 = tbl ∧
        (task_compress_image tbl fs envI task_id file_path q a).2.2.task_id
          = task_id ∧
        (task_compress_audio tbl fs envA task_id file_path b).1 = tbl ∧
        (task_compress_audio tbl fs envA task_id file_path b).2.2.task_id
          = task_id ∧
        (task_compress_video tbl fs envV task_id file_path q a).1 = tbl ∧
        (task_compress_video tbl fs envV task_id file_path q a).2.2.task_id
          = task_id := by
  intro tbl fs envI envA envV task_id file_path q a b h
  refine ⟨?_, ?_, ?_, ?_, ?_, ?_⟩ <;>
    · simp only [task_compress_image, task_compress_audio, task_compress_video,
        updateIfPresent_absent h]
      split <;> rfl

/-- Witness for C10 at a concrete call: the id "missing" is absent from the
empty table, and each worker task returns leaving the table empty. -/
theorem absent_task_frame_witness :
    (task_compress_image [] fsImg envImgOk "missing" "uploads/t1_a.jpg"
        80 true).1 = [] ∧
    (task_compress_image [] fsImg envImgOk "missing" "uploads/t1_a.jpg"
        80 true).2.2.task_id = "missing" ∧
    (task_compress_audio [] fsImg envAudioFfmpeg "missing" "uploads/t1_a.jpg"
        6).1 = [] ∧
    (task_compress_audio [] fsImg envAudioFfmpeg "missing" "uploads/t1_a.jpg"
        6).2.2.task_id = "missing" ∧
    (task_compress_video [] fsImg envVideoOk "missing" "uploads/t1_a.jpg"
        80 true).1 = [] ∧
    (task_compress_video [] fsImg envVideoOk "missing" "uploads/t1_a.jpg"
        80 true).2.2.task_id = "missing" :=
  absent_task_frame [] fsImg envImgOk envAudioFfmpeg envVideoOk "missing"
    "uploads/t1_a.jpg" 80 true 6 rfl

/-- The record-level invariant of claim C4. -/
def taskInvariant (t : CompressionTask) : Prop :=
  (t.compressed_size.isSome ↔ t.status = TaskStatus.completed) ∧
  (t.error_message.isSome ↔ t.status = TaskStatus.failed)

/-- The successive values a present job record passes through during one
worker run (`tasks.compress_image` / `compress_audio` / `compress_video`):
the created record, the record after the dispatch-start write, after the
progress-30 write, and after the terminal write chosen by the engine
result — exactly the record transforms those tasks apply through
`updateIfPresent`. -/
def jobStates (t0 : CompressionTask) (output_path : String)
    (res : CompressionResult) : List CompressionTask :=
  let t1 := markProcessing10 t0
  let t2 := markProgress30 t1
  let t3 :=
    match res with
    | .ok d => markCompleted output_path d t2
    | .err e => markFailed e t2
  [t0, t1, t2, t3]

/-- On a table holding the job, a worker run leaves the record at the last
entry of `jobStates` — the states of `jobStates` are exactly the table's
successive contents.  Shared glue between the task functions and
`jobStates` (shown for the image task; the audio and video tasks apply the
identical transform chain). -/
theorem task_run_final_state :
    ∀ (t0 : CompressionTask) (fs : FS) (env : CompressionEngine.ImageEnv)
      (task_id file_path : String) (q : ℤ) (a : Bool),
      (task_compress_image [(task_id, t0)] fs env task_id file_path q a).1
        = [(task_id,
            (jobStates t0 ("outputs/compressed_" ++ pathName file_path)
              (CompressionEngine.compress_image fs env file_path
                ("outputs/compressed_" ++ pathName file_path) q a).2).getLastD t0)] := by
  intro t0 fs env task_id file_path q a
  have hstep : ∀ (t : CompressionTask) (f : CompressionTask → CompressionTask),
      updateIfPresent [(task_id, t)] task_id f = [(task_id, f t)] := by
    intro t f
    simp [updateIfPresent, findTask, List.find?]
  rcases hX : CompressionEngine.compress_image fs env file_path
      ("outputs/compressed_" ++ pathName file_path) q a with ⟨fs2, r⟩
  cases r <;>
    simp [task_compress_image, hX, hstep, jobStates]

/-- C4: every observable state of any submitted job — the record any upload
handler creates, and each state a worker run moves it through, for any
engine outcome — satisfies: `compressed_size` is set iff status = COMPLETED,
and `error_message` is set iff status = FAILED. -/
theorem terminal_fields_invariant :
    ∀ (task_id filename : String) (len : Nat) (q : ℤ) (a : Bool) (b : ℚ)
      (output_path : String) (res : CompressionResult) (t : CompressionTask),
      (t ∈ jobStates (upload_image_task task_id filename len q a) output_path res →
        taskInvariant t) ∧
      (t ∈ jobStates (upload_audio_task task_id filename len b) output_path res →
        taskInvariant t) ∧
      (t ∈ jobStates (upload_video_task task_id filename len q a) output_path res →
        taskInvariant t) := by
  intro task_id filename len q a b output_path res t
  refine ⟨?_, ?_, ?_⟩ <;>
  · intro ht
    cases res <;>
      · simp only [jobStates, List.mem_cons, List.not_mem_nil, or_false] at ht
        rcases ht with rfl | rfl | rfl | rfl <;>
          simp [taskInvariant, upload_image_task, upload_audio_task,
            upload_video_task, markProcessing10, markProgress30, markCompleted,
            markFailed]

/-- Witness for C4 at a concrete job: the audio job record of the C3 fixture
as created by `upload_audio`, first state of its worker trace. -/
theorem terminal_fields_invariant_witness :
    taskInvariant (upload_audio_task "t2" "song.wav" 1000 6) :=
  (terminal_fields_invariant "t2" "song.wav" 1000 80 true 6
    "outputs/compressed_t2_song.mp3" (.err "boom")
    (upload_audio_task "t2" "song.wav" 1000 6)).2.1 (List.Mem.head _)

/-- C5: each engine compress operation is total over every modelled input —
its outcome is always either the success dict or the
`{success: False, error: <reason>}` dict — and each failure mode (corrupt
source, missing source, external-tool failure) is converted into the error
dict carrying the failing call's message rather than propagating. -/
theorem compress_never_raises :
    ∀ (fs : FS) (envI : CompressionEngine.ImageEnv)
      (envA : CompressionEngine.AudioEnv) (envV : CompressionEngine.VideoEnv)
      (input output : String) (q : ℤ) (a : Bool) (b : ℚ) (em : String) (n : Nat),
      ((∃ d, (CompressionEngine.compress_image fs envI input output q a).2
          = .ok d) ∨
        (∃ e, (CompressionEngine.compress_image fs envI input output q a).2
          = .err e)) ∧
      ((∃ d, (CompressionEngine.compress_audio fs envA input output b).2
          = .ok d) ∨
        (∃ e, (CompressionEngine.compress_audio fs envA input output b).2
          = .err e)) ∧
      ((∃ d, (CompressionEngine.compress_video fs envV input output q a).2
          = .ok d) ∨
        (∃ e, (CompressionEngine.compress_video fs envV input output q a).2
          = .err e)) ∧
      (envI.decode = .error em →
        (CompressionEngine.compress_image fs envI input output q a).2
          = .err em) ∧
      (fs input = none →
        (CompressionEngine.compress_audio fs envA input output b).2
          = .err ("No such file or directory: " ++ input)) ∧
      (fs input = none →
        (CompressionEngine.compress_video fs envV input output q a).2
          = .err ("No such file or directory: " ++ input)) ∧
      (fs input = some n → envA.audioModel = false →
        envA.runFfmpeg (CompressionEngine.compress_with_ffmpeg_args input b)
          = .error em →
        (CompressionEngine.compress_audio fs envA input output b).2
          = .err em) ∧
      (fs input = some n → (∀ ar, envV.runFfmpeg ar = .error em) →
        (CompressionEngine.compress_video fs envV input output q a).2
          = .err em) := by
  intro fs envI envA envV input output q a b em n
  refine ⟨?_, ?_, ?_, ?_, ?_, ?_, ?_, ?_⟩
  · rcases hI : (CompressionEngine.compress_image fs envI input output q a).2
      with d | e
    · exact Or.inl ⟨d, rfl⟩
    · exact Or.inr ⟨e, rfl⟩
  · rcases hA : (CompressionEngine.compress_audio fs envA input output b).2
      with d | e
    · exact Or.inl ⟨d, rfl⟩
    · exact Or.inr ⟨e, rfl⟩
  · rcases hV : (CompressionEngine.compress_video fs envV input output q a).2
      with d | e
    · exact Or.inl ⟨d, rfl⟩
    · exact Or.inr ⟨e, rfl⟩
  · intro h
    simp [CompressionEngine.compress_image, h]
  · intro h
    simp [CompressionEngine.compress_audio, getsize, h]
  · intro h
    simp [CompressionEngine.compress_video, getsize, h]
  · intro hn hm hff
    simp [CompressionEngine.compress_audio, CompressionEngine.compress_with_ffmpeg,
      getsize, hn, hm, hff]
  · intro hn hff
    simp [CompressionEngine.compress_video, getsize, hn, hff]

/-- Witness for C5 at a concrete call: a corrupt image source converts into
the error dict carrying PIL's message. -/
theorem compress_never_raises_witness :
    (CompressionEngine.compress_image fsImg envImgBad "uploads/t1_a.jpg"
        "outputs/compressed_t1_a.jpg" 80 true).2
      = .err "cannot identify image file" :=
  (compress_never_raises fsImg envImgBad envAudioFfmpeg envVideoOk
    "uploads/t1_a.jpg" "outputs/compressed_t1_a.jpg" 80 true 6
    "cannot identify image file" 0).2.2.2.1 rfl
